import Mathlib

/-!
Shallow embedding of the risk-eco-linker frontend (React/TypeScript) in Lean 4.

The embedded code comes from:
* `src/pages/Index.tsx` — the `Index` page: the `RiskReport` JSON shape, the
  `handleAddressSubmit` submit handler, the `handleTokenChange` token handler,
  and the render conditions for the error banner, result cards and empty state;
* `src/components/AddressInput.tsx` — the address form: the autocomplete
  effect's guard, `handleSubmit`, `handleSelectSuggestion`, the input's
  `onChange`, the submit button's `disabled` condition, and the
  `getDecisionConfig` classifier of the `DecisionBadge`;
* `src/components/LocationDataCard.tsx` — the null guard and field defaulting
  of the location-data card;
* `src/components/RiskScoreCard.tsx` — the three score classifiers
  `getRiskLevel`, `getRiskColorClass`, `getProgressColorClass`.

JavaScript strings are modelled by `String`, JavaScript numbers by `ℚ`
(only order comparisons and pass-through occur, never rounding-sensitive
arithmetic), possibly-undefined JSON fields by `Option`, and a thrown
`TypeError` from dereferencing `undefined` by `Option.none` of a render
function.
-/

namespace RiskEcoLinker

/-! ### JavaScript string helpers -/

/-- Whether the character list `sub` occurs at the start of `s`. -/
def startsWithSeq : List Char → List Char → Bool
  | _, [] => true
  | [], _ :: _ => false
  | c :: cs, d :: ds => c == d && startsWithSeq cs ds

/-- Whether the character list `sub` occurs contiguously anywhere in `s`:
the semantics of JavaScript `String.prototype.includes`. -/
def containsSeq : List Char → List Char → Bool
  | [], sub => sub.isEmpty
  | c :: cs, sub => startsWithSeq (c :: cs) sub || containsSeq cs sub

/-- JavaScript `s.includes(sub)`. -/
def jsIncludes (s sub : String) : Bool :=
  containsSeq s.data sub.data

/-- JavaScript `s.toUpperCase()`: uppercase every character. -/
def jsToUpper (s : String) : String :=
  String.mk (s.data.map Char.toUpper)

/-- JavaScript `s.trim()`: drop leading and trailing whitespace. -/
def jsTrim (s : String) : String :=
  String.mk (((s.data.dropWhile Char.isWhitespace).reverse.dropWhile
    Char.isWhitespace).reverse)

/-! ### RiskScoreCard (src/components/RiskScoreCard.tsx)

`getRiskLevel`, `getRiskColorClass` and `getProgressColorClass` classify a
numeric score into success / warning / danger bands. -/

/-- The object `{ label, color }` returned by `getRiskLevel`. -/
structure RiskLevel where
  label : String
  color : String
  deriving Repr, DecidableEq

/-- `getRiskLevel` from RiskScoreCard.tsx:
`score < 30 → Low/success; score < 70 → Moderate/warning; else High/danger`. -/
def getRiskLevel (score : ℚ) : RiskLevel :=
  if score < 30 then { label := "Low", color := "success" }
  else if score < 70 then { label := "Moderate", color := "warning" }
  else { label := "High", color := "danger" }

/-- `getRiskColorClass` from RiskScoreCard.tsx. -/
def getRiskColorClass (score : ℚ) : String :=
  if score < 30 then "text-success"
  else if score < 70 then "text-warning"
  else "text-danger"

/-- `getProgressColorClass` from RiskScoreCard.tsx. -/
def getProgressColorClass (score : ℚ) : String :=
  if score < 30 then "[&>div]:bg-success"
  else if score < 70 then "[&>div]:bg-warning"
  else "[&>div]:bg-danger"

/-! ### DecisionBadge (src/components/AddressInput.tsx, getDecisionConfig) -/

/-- The config object returned by `getDecisionConfig`; the icon component is
modelled by its name. -/
structure DecisionConfig where
  icon : String
  label : String
  variant : String
  deriving Repr, DecidableEq

/-- The Approved config. -/
def approvedConfig : DecisionConfig :=
  { icon := "CheckCircle", label := "Approved", variant := "success" }

/-- The Denied config. -/
def deniedConfig : DecisionConfig :=
  { icon := "XCircle", label := "Denied", variant := "danger" }

/-- The Flag-for-Review config. -/
def reviewConfig : DecisionConfig :=
  { icon := "AlertTriangle", label := "Flag for Review", variant := "warning" }

/-- `getDecisionConfig` from the DecisionBadge component: uppercase the
decision, then test `includes("APPROVE")`, then `includes("DENY")`,
else flag for review. -/
def getDecisionConfig (decision : String) : DecisionConfig :=
  let normalized := jsToUpper decision
  if jsIncludes normalized "APPROVE" then approvedConfig
  else if jsIncludes normalized "DENY" then deniedConfig
  else reviewConfig

/-! ### The response data model (src/pages/Index.tsx, RiskReport)

The TypeScript interface `RiskReport` declares `location`, `risk_scores`,
`overall_summary` and `automated_decision` required and `location_data`
optional, but types are erased at runtime: the value handed to `setReport`
is whatever JSON the server returned. `RiskReportJson` therefore models the
runtime value with every field possibly absent; dereferencing an absent
field is a thrown `TypeError`, modelled as `Option.none` of the renderer. -/

/-- A single risk score record `{ risk_type, score, explanation }`. -/
structure RiskScore where
  risk_type : String
  score : ℚ
  explanation : String
  deriving Repr, DecidableEq

/-- The nested `location` object `{ address, latitude, longitude }`. -/
structure LocationObject where
  address : String
  latitude : ℚ
  longitude : ℚ
  deriving Repr, DecidableEq

/-- The `fire_history` object of the Earth Engine location data, with the
fields LocationDataCard.tsx reads. -/
structure FireHistory where
  has_fire : Option Bool
  last_fire_date : Option String
  total_fires_in_period : Option ℕ
  fires_per_year : Option ℚ
  error : Option String
  deriving Repr, DecidableEq

/-- The opaque pass-through Earth Engine `location_data` object, restricted
to the top-level keys LocationDataCard.tsx reads; `worldcover` and
`current_conditions` are kept opaque as key/value lists. -/
structure LocationData where
  worldcover : Option (List (String × ℚ))
  fire_history : Option FireHistory
  current_conditions : Option (List (String × ℚ))
  deriving Repr, DecidableEq

/-- The runtime JSON value assigned to `report`; each field may be absent. -/
structure RiskReportJson where
  location : Option LocationObject
  risk_scores : Option (List RiskScore)
  overall_summary : Option String
  automated_decision : Option String
  location_data : Option LocationData
  deriving Repr, DecidableEq

/-! ### LocationDataCard (src/components/LocationDataCard.tsx) -/

/-- The data LocationDataCard extracts for its fire-history section, after
the JavaScript `|| default` fallbacks on lines 39–42. -/
structure LocationCardView where
  hasFire : Bool
  lastFireDate : Option String
  totalFires : ℕ
  firesPerYear : ℚ
  deriving Repr, DecidableEq

/-- `LocationDataCard`: returns `null` (here `none`) when `locationData` is
null or undefined; otherwise renders, defaulting `fire_history` to `{}` and
its fields per the `||` fallbacks. -/
def LocationDataCard (locationData : Option LocationData) : Option LocationCardView :=
  match locationData with
  | none => none
  | some ld =>
    let fireHistory := ld.fire_history.getD
      { has_fire := none, last_fire_date := none, total_fires_in_period := none,
        fires_per_year := none, error := none }
    some { hasFire := fireHistory.has_fire.getD false
           lastFireDate := fireHistory.last_fire_date
           totalFires := fireHistory.total_fires_in_period.getD 0
           firesPerYear := fireHistory.fires_per_year.getD 0 }

/-! ### The result view of the Index page (src/pages/Index.tsx, lines 147–195)

The results section dereferences `report.location.address`,
`report.location.latitude`, `report.location.longitude`, maps over
`report.risk_scores`, and passes `report.automated_decision` to
`DecisionBadge`, whose `getDecisionConfig` immediately calls
`.toUpperCase()` on it. Each of these throws a `TypeError` when the
dereferenced field is absent; `report.overall_summary` and
`report.location_data` are only interpolated or guarded, so their absence
does not throw. -/

/-- What the results section displays for one report. -/
structure RenderedReport where
  address : String
  latitude : ℚ
  longitude : ℚ
  locationCard : Option LocationCardView
  riskCards : List (String × ℚ × String)
  decision : DecisionConfig
  summary : Option String
  deriving Repr, DecidableEq

/-- The result view of the Index page: `none` models a thrown `TypeError`
from dereferencing an absent field. -/
def renderResult (report : RiskReportJson) : Option RenderedReport := do
  let loc ← report.location
  let scores ← report.risk_scores
  let decision ← report.automated_decision
  some { address := loc.address
         latitude := loc.latitude
         longitude := loc.longitude
         locationCard :=
           if report.location_data.isSome then LocationDataCard report.location_data
           else none
         riskCards := scores.map fun r => (r.risk_type, r.score, r.explanation)
         decision := getDecisionConfig decision
         summary := report.overall_summary }

/-! ### Index page state and handleAddressSubmit (src/pages/Index.tsx) -/

/-- The `useState` fields of the Index page that the submit handler and the
render conditions touch. -/
structure IndexState where
  isLoading : Bool
  report : Option RiskReportJson
  error : Option String
  formResetKey : ℕ
  deriving Repr, DecidableEq

/-- The Index page's state before any interaction:
`useState(false)`, `useState(null)`, `useState(null)`, `useState(0)`. -/
def indexInitialState : IndexState :=
  { isLoading := false, report := none, error := none, formResetKey := 0 }

/-- How one `fetch` of `POST /api/get-risk-report` resolves:
either the promise rejects (carrying `some message` when the thrown value is
an `Error`, `none` otherwise), or a response arrives with its `ok` flag,
status code, and — when consumed — parsed JSON body. -/
inductive FetchOutcome where
  | reject (errMessage : Option String)
  | httpResponse (ok : Bool) (status : ℕ) (data : RiskReportJson)
  deriving Repr, DecidableEq

/-- The synchronous prefix of `handleAddressSubmit`:
`setIsLoading(true); setError(null); setReport(null)`. -/
def submitBegin (s : IndexState) : IndexState :=
  { s with isLoading := true, error := none, report := none }

/-- The try/catch/finally of `handleAddressSubmit` applied after
`submitBegin`: a rejected fetch or a thrown `API error: <status>` lands in
the catch block which sets the error message; an ok response stores the
report and bumps `formResetKey`; the finally block clears `isLoading`. -/
def submitFinish (s : IndexState) (outcome : FetchOutcome) : IndexState :=
  match outcome with
  | .reject errMessage =>
    { s with error := some (errMessage.getD "Failed to fetch risk assessment"),
             isLoading := false }
  | .httpResponse ok status data =>
    if ok then
      { s with report := some data, formResetKey := s.formResetKey + 1,
               isLoading := false }
    else
      { s with error := some ("API error: " ++ toString status),
               isLoading := false }

/-- A full run of `handleAddressSubmit` for one fetch outcome. -/
def handleAddressSubmit (s : IndexState) (outcome : FetchOutcome) : IndexState :=
  submitFinish (submitBegin s) outcome

/-- Whether the outcome takes the catch path: fetch rejected, or `!response.ok`. -/
def isFailureOutcome : FetchOutcome → Bool
  | .reject _ => true
  | .httpResponse ok _ _ => !ok

/-- Render condition of the destructive error banner: `{error && <Alert …>}`. -/
def showsErrorBanner (s : IndexState) : Bool :=
  s.error.isSome

/-- Render condition of the results section: `{report && <div …>}`. -/
def showsResults (s : IndexState) : Bool :=
  s.report.isSome

/-- Render condition of the empty state: `{!report && !isLoading && !error}`. -/
def showsEmptyState (s : IndexState) : Bool :=
  !s.report.isSome && !s.isLoading && !s.error.isSome

/-- The Index states reachable through the submit handler: the initial
state, the state right after the handler's synchronous prefix, and the
state after the handler completes for some fetch outcome. -/
inductive ReachableIndex : IndexState → Prop where
  | init : ReachableIndex indexInitialState
  | submitting {s : IndexState} :
      ReachableIndex s → ReachableIndex (submitBegin s)
  | submitted {s : IndexState} (outcome : FetchOutcome) :
      ReachableIndex s → ReachableIndex (handleAddressSubmit s outcome)

/-! ### The request body (src/pages/Index.tsx, lines 59–64) -/

/-- A `{ lat, lng }` coordinate pair. -/
structure Coordinates where
  lat : ℚ
  lng : ℚ
  deriving Repr, DecidableEq

/-- The JSON body of `POST /api/get-risk-report` after `JSON.stringify`,
which omits fields left `undefined`. -/
structure RequestBody where
  address : String
  latitude : Option ℚ
  longitude : Option ℚ
  deriving Repr, DecidableEq

/-- Lines 59–64 of Index.tsx: start from `{ address }` and add `latitude`
and `longitude` only when `coordinates` is non-null. -/
def buildRequestBody (address : String) (coordinates : Option Coordinates) : RequestBody :=
  match coordinates with
  | none => { address := address, latitude := none, longitude := none }
  | some c => { address := address, latitude := some c.lat, longitude := some c.lng }

/-! ### handleTokenChange and localStorage (src/pages/Index.tsx, lines 42–48) -/

/-- The browser's localStorage, as a key/value map. -/
def LocalStorage : Type :=
  String → Option String

/-- `localStorage.setItem(key, value)`. -/
def setItem (st : LocalStorage) (key value : String) : LocalStorage :=
  fun k => if k = key then some value else st k

/-- A localStorage with no keys set. -/
def emptyStorage : LocalStorage :=
  fun _ => none

/-- The result of `handleTokenChange`: the new `mapboxToken` React state and
the localStorage after the handler ran. -/
structure TokenChangeResult where
  mapboxToken : String
  storage : LocalStorage

/-- `handleTokenChange(token)`: sets the `mapboxToken` state, and writes the
token to `localStorage` under `"mapbox_token"` unless the
`VITE_MAPBOX_API_KEY` environment variable is set. -/
def handleTokenChange (envKeySet : Bool) (token : String) (st : LocalStorage) :
    TokenChangeResult :=
  if envKeySet then
    { mapboxToken := token, storage := st }
  else
    { mapboxToken := token, storage := setItem st "mapbox_token" token }

/-! ### AddressInput (src/components/AddressInput.tsx) -/

/-- A Mapbox geocoding feature `{ id, place_name, center: [lng, lat] }`. -/
structure MapboxFeature where
  id : String
  place_name : String
  center : ℚ × ℚ
  deriving Repr, DecidableEq

/-- The coordinates `handleSelectSuggestion` derives from a feature:
`{ lat: feature.center[1], lng: feature.center[0] }`. -/
def featureCoordinates (f : MapboxFeature) : Coordinates :=
  { lat := f.center.2, lng := f.center.1 }

/-- What the autocomplete effect's `fetchSuggestions` does synchronously:
whether a geocoding request goes out (`request = some (address, token)`),
and whether the suggestion list is set to `[]` by the guard. -/
structure AutocompleteEffect where
  request : Option (String × String)
  clearedSuggestions : Bool
  deriving Repr, DecidableEq

/-- `fetchSuggestions` of the autocomplete effect, lines 39–58:
`if (!address.trim() || !mapboxToken || address.length < 3)` clear the
suggestions and return without a network request; otherwise fetch the
geocoding endpoint for (address, token). -/
def fetchSuggestions (address mapboxToken : String) : AutocompleteEffect :=
  if jsTrim address = "" ∨ mapboxToken = "" ∨ address.length < 3 then
    { request := none, clearedSuggestions := true }
  else
    { request := some (address, mapboxToken), clearedSuggestions := false }

/-- The `useState` fields of the AddressInput form. -/
structure AddressInputState where
  address : String
  suggestions : List MapboxFeature
  showSuggestions : Bool
  selectedCoordinates : Option Coordinates
  deriving Repr, DecidableEq

/-- The form's state before any interaction. -/
def addressInputInitialState : AddressInputState :=
  { address := "", suggestions := [], showSuggestions := false,
    selectedCoordinates := none }

/-- The user-visible events of the AddressInput form:
typing in the address input, the debounced suggestion response arriving,
clicking a suggestion, and submitting the form. -/
inductive InputEvent where
  | editAddress (value : String)
  | suggestionsLoaded (features : List MapboxFeature)
  | selectSuggestion (f : MapboxFeature)
  | submitForm
  deriving Repr, DecidableEq

/-- One step of the AddressInput form; the second component is the
`onSubmit(address.trim(), selectedCoordinates)` call emitted by
`handleSubmit`, when its guard passes.

* `editAddress` is the input's `onChange`: `setAddress(v);
  setSelectedCoordinates(null)`.
* `suggestionsLoaded` is the `response.ok` branch of the autocomplete
  effect: `setSuggestions(features); setShowSuggestions(true)`.
* `selectSuggestion` is `handleSelectSuggestion`.
* `submitForm` is `handleSubmit`: guarded by
  `address.trim() && selectedCoordinates`. -/
def stepInput (s : AddressInputState) (e : InputEvent) :
    AddressInputState × Option (String × Coordinates) :=
  match e with
  | .editAddress v =>
    ({ s with address := v, selectedCoordinates := none }, none)
  | .suggestionsLoaded features =>
    ({ s with suggestions := features, showSuggestions := true }, none)
  | .selectSuggestion f =>
    ({ s with address := f.place_name,
              selectedCoordinates := some (featureCoordinates f),
              showSuggestions := false, suggestions := [] }, none)
  | .submitForm =>
    match s.selectedCoordinates with
    | some c =>
      if jsTrim s.address = "" then (s, none)
      else ({ s with showSuggestions := false }, some (jsTrim s.address, c))
    | none => (s, none)

/-- Run the form from its initial state over a list of events, collecting
every `onSubmit` call it emits. -/
def runInput (events : List InputEvent) :
    AddressInputState × List (String × Coordinates) :=
  events.foldl
    (fun acc e =>
      let out := stepInput acc.1 e
      (out.1, acc.2 ++ out.2.toList))
    (addressInputInitialState, [])

/-- The coordinates of the most recently selected suggestion, with every
manual edit resetting them: the intended reading of how
`selectedCoordinates` evolves. -/
def lastSelectedCoordinates (events : List InputEvent) : Option Coordinates :=
  events.foldl
    (fun acc e =>
      match e with
      | .editAddress _ => none
      | .selectSuggestion f => some (featureCoordinates f)
      | _ => acc)
    none

/-- The submit button's `disabled` condition, line 144:
`!address.trim() || !selectedCoordinates || isLoading`. -/
def submitButtonDisabled (s : AddressInputState) (isLoading : Bool) : Bool :=
  jsTrim s.address = "" || !s.selectedCoordinates.isSome || isLoading

/-! ## Theorems -/

/-- C10: the three classifiers of RiskScoreCard agree on the same band
boundaries: the Low/success variants exactly when `score < 30`, the
Moderate/warning variants exactly when `30 ≤ score < 70`, and the
High/danger variants exactly when `score ≥ 70`. -/
theorem riskscore_classifiers_agree (score : ℚ) :
    ((getRiskLevel score = { label := "Low", color := "success" } ∧
      getRiskColorClass score = "text-success" ∧
      getProgressColorClass score = "[&>div]:bg-success") ↔ score < 30) ∧
    ((getRiskLevel score = { label := "Moderate", color := "warning" } ∧
      getRiskColorClass score = "text-warning" ∧
      getProgressColorClass score = "[&>div]:bg-warning") ↔ (30 ≤ score ∧ score < 70)) ∧
    ((getRiskLevel score = { label := "High", color := "danger" } ∧
      getRiskColorClass score = "text-danger" ∧
      getProgressColorClass score = "[&>div]:bg-danger") ↔ 70 ≤ score) := by
  unfold getRiskLevel getRiskColorClass getProgressColorClass
  split_ifs with h1 h2
  · refine ⟨iff_of_true ⟨rfl, rfl, rfl⟩ h1, iff_of_false ?_ ?_, iff_of_false ?_ ?_⟩
    · rintro ⟨hL, -, -⟩; exact absurd (congrArg RiskLevel.label hL) (by decide)
    · rintro ⟨h30, -⟩; linarith
    · rintro ⟨hL, -, -⟩; exact absurd (congrArg RiskLevel.label hL) (by decide)
    · intro h70; linarith
  · push_neg at h1
    refine ⟨iff_of_false ?_ ?_, iff_of_true ⟨rfl, rfl, rfl⟩ ⟨h1, h2⟩, iff_of_false ?_ ?_⟩
    · rintro ⟨hL, -, -⟩; exact absurd (congrArg RiskLevel.label hL) (by decide)
    · intro hlt; linarith
    · rintro ⟨hL, -, -⟩; exact absurd (congrArg RiskLevel.label hL) (by decide)
    · intro h70; linarith
  · push_neg at h1 h2
    refine ⟨iff_of_false ?_ ?_, iff_of_false ?_ ?_, iff_of_true ⟨rfl, rfl, rfl⟩ h2⟩
    · rintro ⟨hL, -, -⟩; exact absurd (congrArg RiskLevel.label hL) (by decide)
    · intro hlt; linarith
    · rintro ⟨hL, -, -⟩; exact absurd (congrArg RiskLevel.label hL) (by decide)
    · rintro ⟨-, hlt⟩; linarith

/-- Witness for C10 at the concrete scores 10, 45 and 70. -/
theorem riskscore_classifiers_agree_witness :
    getRiskLevel 10 = { label := "Low", color := "success" } ∧
    getRiskColorClass 45 = "text-warning" ∧
    getProgressColorClass 70 = "[&>div]:bg-danger" :=
  ⟨((riskscore_classifiers_agree 10).1.mpr (by norm_num)).1,
   ((riskscore_classifiers_agree 45).2.1.mpr (by norm_num)).2.1,
   ((riskscore_classifiers_agree 70).2.2.mpr (by norm_num)).2.2⟩

/-- C4: the decision badge classifies every decision string into exactly one
of the three configs: `includes("APPROVE")` after uppercasing gives
Approved, else `includes("DENY")` gives Denied, and everything else gives
Flag for Review. -/
theorem decision_badge_classification (decision : String) :
    (jsIncludes (jsToUpper decision) "APPROVE" = true →
      getDecisionConfig decision = approvedConfig) ∧
    (jsIncludes (jsToUpper decision) "APPROVE" = false →
      jsIncludes (jsToUpper decision) "DENY" = true →
      getDecisionConfig decision = deniedConfig) ∧
    (jsIncludes (jsToUpper decision) "APPROVE" = false →
      jsIncludes (jsToUpper decision) "DENY" = false →
      getDecisionConfig decision = reviewConfig) ∧
    (getDecisionConfig decision = approvedConfig ∨
     getDecisionConfig decision = deniedConfig ∨
     getDecisionConfig decision = reviewConfig) := by
  refine ⟨fun h1 => by simp [getDecisionConfig, h1],
    fun h1 h2 => by simp [getDecisionConfig, h1, h2],
    fun h1 h2 => by simp [getDecisionConfig, h1, h2], ?_⟩
  cases h1 : jsIncludes (jsToUpper decision) "APPROVE" <;>
    cases h2 : jsIncludes (jsToUpper decision) "DENY" <;>
    simp [getDecisionConfig, h1, h2]

/-- Witness for C4 at three concrete decision strings, including the
README's "REJECT", which is neither approved nor denied. -/
theorem decision_badge_classification_witness :
    getDecisionConfig "approve" = approvedConfig ∧
    getDecisionConfig "Deny coverage" = deniedConfig ∧
    getDecisionConfig "REJECT" = reviewConfig :=
  ⟨(decision_badge_classification "approve").1 (by decide),
   (decision_badge_classification "Deny coverage").2.1 (by decide) (by decide),
   (decision_badge_classification "REJECT").2.2.1 (by decide) (by decide)⟩

/-- C1 counterexample: a response carrying exactly the fields the spec lists
(`overall_summary`, `automated_decision`, `risk_scores`, no `location_data`)
but no `location` object makes the result view dereference the undefined
`report.location`, so rendering fails (`renderResult` returns `none`). -/
theorem render_spec_fields_counterexample :
    (RiskReportJson.overall_summary
        { location := none
          risk_scores := some [{ risk_type := "Flood", score := 12, explanation := "low" }]
          overall_summary := some "All good"
          automated_decision := some "APPROVE"
          location_data := none }).isSome = true ∧
    (RiskReportJson.automated_decision
        { location := none
          risk_scores := some [{ risk_type := "Flood", score := 12, explanation := "low" }]
          overall_summary := some "All good"
          automated_decision := some "APPROVE"
          location_data := none }).isSome = true ∧
    (RiskReportJson.risk_scores
        { location := none
          risk_scores := some [{ risk_type := "Flood", score := 12, explanation := "low" }]
          overall_summary := some "All good"
          automated_decision := some "APPROVE"
          location_data := none }).isSome = true ∧
    renderResult
        { location := none
          risk_scores := some [{ risk_type := "Flood", score := 12, explanation := "low" }]
          overall_summary := some "All good"
          automated_decision := some "APPROVE"
          location_data := none } = none :=
  ⟨rfl, rfl, rfl, rfl⟩

/-- C1 amended: the result view renders without dereferencing an undefined
field exactly when, beyond the spec's list, the `location` object is also
present: any response with `location`, `risk_scores` and
`automated_decision` present renders successfully, with or without
`location_data` and `overall_summary`. -/
theorem render_with_location_ok (loc : LocationObject) (scores : List RiskScore)
    (summary : Option String) (decision : String) (locData : Option LocationData) :
    (renderResult
        { location := some loc
          risk_scores := some scores
          overall_summary := summary
          automated_decision := some decision
          location_data := locData }).isSome = true :=
  rfl

/-- C3: the request body always carries `address`, and carries `latitude`
and `longitude` exactly when `coordinates` is non-null, copying
`coordinates.lat` and `coordinates.lng`. -/
theorem request_body_fields (address : String) (coordinates : Option Coordinates) :
    (buildRequestBody address coordinates).address = address ∧
    ((buildRequestBody address coordinates).latitude.isSome ↔ coordinates.isSome) ∧
    ((buildRequestBody address coordinates).longitude.isSome ↔ coordinates.isSome) ∧
    (∀ c, coordinates = some c →
      (buildRequestBody address coordinates).latitude = some c.lat ∧
      (buildRequestBody address coordinates).longitude = some c.lng) ∧
    (coordinates = none →
      (buildRequestBody address coordinates).latitude = none ∧
      (buildRequestBody address coordinates).longitude = none) := by
  cases coordinates <;> simp [buildRequestBody]

/-- Witness for C3 at a concrete address and coordinate pair. -/
theorem request_body_fields_witness :
    (buildRequestBody "1 Main St" (some { lat := 37, lng := -122 })).address = "1 Main St" ∧
    (buildRequestBody "1 Main St" (some { lat := 37, lng := -122 })).latitude = some 37 ∧
    (buildRequestBody "1 Main St" (some { lat := 37, lng := -122 })).longitude = some (-122) ∧
    (buildRequestBody "1 Main St" none).latitude = none :=
  have h := request_body_fields "1 Main St" (some { lat := 37, lng := -122 })
  ⟨h.1, (h.2.2.2.1 _ rfl).1, (h.2.2.2.1 _ rfl).2,
   ((request_body_fields "1 Main St" none).2.2.2.2 rfl).1⟩

/-- C2: a rejected fetch or a non-ok HTTP status leaves the handler with a
null report, a non-null error message (`API error: <status>` for a non-ok
status), loading cleared, the error banner rendered, and no result cards. -/
theorem submit_failure_shows_error (s : IndexState) (outcome : FetchOutcome)
    (h : isFailureOutcome outcome = true) :
    (handleAddressSubmit s outcome).report = none ∧
    (handleAddressSubmit s outcome).error.isSome = true ∧
    (handleAddressSubmit s outcome).isLoading = false ∧
    showsErrorBanner (handleAddressSubmit s outcome) = true ∧
    showsResults (handleAddressSubmit s outcome) = false ∧
    (∀ status data, outcome = FetchOutcome.httpResponse false status data →
      (handleAddressSubmit s outcome).error = some ("API error: " ++ toString status)) := by
  cases outcome with
  | reject m =>
    simp [handleAddressSubmit, submitBegin, submitFinish, showsErrorBanner, showsResults]
  | httpResponse ok status data =>
    cases ok with
    | true => simp [isFailureOutcome] at h
    | false =>
      simp [handleAddressSubmit, submitBegin, submitFinish, showsErrorBanner, showsResults]

/-- Witness for C2 at a concrete 500 response. -/
theorem submit_failure_shows_error_witness :
    (handleAddressSubmit indexInitialState
        (FetchOutcome.httpResponse false 500 ⟨none, none, none, none, none⟩)).report
      = none ∧
    (handleAddressSubmit indexInitialState
        (FetchOutcome.httpResponse false 500 ⟨none, none, none, none, none⟩)).error
      = some "API error: 500" ∧
    (handleAddressSubmit indexInitialState
        (FetchOutcome.httpResponse false 500 ⟨none, none, none, none, none⟩)).isLoading
      = false :=
  have h := submit_failure_shows_error indexInitialState
    (FetchOutcome.httpResponse false 500 ⟨none, none, none, none, none⟩) rfl
  ⟨h.1, h.2.2.2.2.2 500 _ rfl, h.2.2.1⟩

/-- C5 counterexample: with no environment key set, `handleTokenChange`
does write the token to localStorage under the key `mapbox_token`: a client
handler persists data to a durable client-side store. -/
theorem token_persisted_counterexample :
    emptyStorage "mapbox_token" = none ∧
    (handleTokenChange false "pk.test-token" emptyStorage).storage "mapbox_token"
      = some "pk.test-token" :=
  ⟨rfl, by simp [handleTokenChange, setItem]⟩

/-- C5 amended: the application holds no durable server-side state, but the
client is not write-free: `handleTokenChange` persists the map-service token
to localStorage under `mapbox_token` — and touches no other key — exactly
when the `VITE_MAPBOX_API_KEY` environment variable is not set; when it is
set, nothing is written. -/
theorem token_storage_characterization (envKeySet : Bool) (token : String)
    (st : LocalStorage) :
    (handleTokenChange envKeySet token st).mapboxToken = token ∧
    (envKeySet = true → (handleTokenChange envKeySet token st).storage = st) ∧
    (envKeySet = false →
      (handleTokenChange envKeySet token st).storage "mapbox_token" = some token ∧
      ∀ k, k ≠ "mapbox_token" → (handleTokenChange envKeySet token st).storage k = st k) := by
  cases envKeySet with
  | true => exact ⟨rfl, fun _ => rfl, fun h => by simp at h⟩
  | false =>
    refine ⟨rfl, fun h => by simp at h, fun _ => ⟨by simp [handleTokenChange, setItem], ?_⟩⟩
    intro k hk
    simp [handleTokenChange, setItem, hk]

/-- Witness for C5's amended statement with the environment key unset. -/
theorem token_storage_characterization_witness :
    (handleTokenChange false "pk.abc" emptyStorage).storage "mapbox_token"
      = some "pk.abc" ∧
    (handleTokenChange false "pk.abc" emptyStorage).storage "other_key" = none ∧
    (handleTokenChange true "pk.abc" emptyStorage).storage = emptyStorage :=
  have h := token_storage_characterization false "pk.abc" emptyStorage
  ⟨(h.2.2 rfl).1, ((h.2.2 rfl).2 "other_key" (by decide)).trans rfl,
   (token_storage_characterization true "pk.abc" emptyStorage).2.1 rfl⟩

/-- C6: in every Index state reachable through the submit handler, `report`
and `error` are never both non-null, and the empty-state panel is shown
exactly when `report`, `error` are null and `isLoading` is false. -/
theorem index_state_invariant :
    (∀ s, ReachableIndex s →
      ¬(s.report.isSome = true ∧ s.error.isSome = true) ∧
      (s.isLoading = true → s.report = none ∧ s.error = none)) ∧
    (∀ s, showsEmptyState s = true ↔
      (s.report = none ∧ s.error = none ∧ s.isLoading = false)) := by
  constructor
  · intro s h
    induction h with
    | init => simp [indexInitialState]
    | submitting _ ih => simp [submitBegin]
    | submitted outcome _ ih =>
      cases outcome with
      | reject m =>
        simp [handleAddressSubmit, submitBegin, submitFinish]
      | httpResponse ok status data =>
        cases ok <;> simp [handleAddressSubmit, submitBegin, submitFinish]
  · intro s
    rcases s with ⟨l, r, e, k⟩
    cases r <;> cases e <;> cases l <;> simp [showsEmptyState]

/-- Witness for C6 at the state reached by one failing submit from the
initial state. -/
theorem index_state_invariant_witness :
    ¬((handleAddressSubmit indexInitialState (FetchOutcome.reject none)).report.isSome
        = true ∧
      (handleAddressSubmit indexInitialState (FetchOutcome.reject none)).error.isSome
        = true) ∧
    ((submitBegin indexInitialState).isLoading = true →
      (submitBegin indexInitialState).report = none ∧
      (submitBegin indexInitialState).error = none) ∧
    (showsEmptyState indexInitialState = true ↔
      (indexInitialState.report = none ∧ indexInitialState.error = none ∧
        indexInitialState.isLoading = false)) :=
  ⟨(index_state_invariant.1 _
      (ReachableIndex.submitted (FetchOutcome.reject none) ReachableIndex.init)).1,
   (index_state_invariant.1 _ (ReachableIndex.submitting ReachableIndex.init)).2,
   index_state_invariant.2 indexInitialState⟩

/-- C7: the autocomplete effect issues a geocoding request exactly when the
token is non-empty, the trimmed address is non-blank and the address has at
least 3 characters; whenever no request goes out the suggestion list is set
to empty, and with an empty token the effect never fires. -/
theorem autocomplete_guard (address mapboxToken : String) :
    ((fetchSuggestions address mapboxToken).request.isSome = true ↔
      (jsTrim address ≠ "" ∧ mapboxToken ≠ "" ∧ 3 ≤ address.length)) ∧
    ((fetchSuggestions address mapboxToken).request = none →
      (fetchSuggestions address mapboxToken).clearedSuggestions = true) ∧
    (fetchSuggestions address "").request = none := by
  refine ⟨⟨?_, ?_⟩, ?_, ?_⟩
  · intro hsome
    unfold fetchSuggestions at hsome
    split_ifs at hsome with h
    · simp at hsome
    · push_neg at h
      exact ⟨h.1, h.2.1, h.2.2⟩
  · rintro ⟨ht, hm, hl⟩
    unfold fetchSuggestions
    rw [if_neg]
    · rfl
    · rintro (h | h | h)
      exacts [ht h, hm h, by omega]
  · intro hnone
    by_cases h : (jsTrim address = "" ∨ mapboxToken = "" ∨ address.length < 3)
    · simp [fetchSuggestions, h]
    · simp [fetchSuggestions, h] at hnone
  · unfold fetchSuggestions
    rw [if_pos (Or.inr (Or.inl rfl))]

/-- Witness for C7 at concrete addresses and tokens. -/
theorem autocomplete_guard_witness :
    (fetchSuggestions "123 Main St" "pk.token").request.isSome = true ∧
    (fetchSuggestions "ab" "pk.token").clearedSuggestions = true ∧
    (fetchSuggestions "123 Main St" "").request = none :=
  ⟨(autocomplete_guard "123 Main St" "pk.token").1.mpr
      ⟨by decide, by decide, by decide⟩,
   (autocomplete_guard "ab" "pk.token").2.1 (by decide),
   (autocomplete_guard "123 Main St" "").2.2⟩

/-- C8: `location_data` is optional: `LocationDataCard` renders nothing on a
null argument and something on a present one, and a successfully rendered
report shows the card exactly when the response carried `location_data`. -/
theorem location_card_optional :
    LocationDataCard none = none ∧
    (∀ ld, (LocationDataCard (some ld)).isSome = true) ∧
    (∀ r view, renderResult r = some view →
      (view.locationCard.isSome = true ↔ r.location_data.isSome = true)) := by
  refine ⟨rfl, fun ld => rfl, ?_⟩
  intro r view h
  rcases r with ⟨loc, scores, summ, dec, ld⟩
  cases loc <;> cases scores <;> cases dec <;> simp [renderResult] at h
  subst h
  cases ld with
  | none => simp
  | some d => simp [LocationDataCard]

/-- Witness for C8 at a concrete fully-populated response. -/
theorem location_card_optional_witness :
    (RenderedReport.locationCard
        ⟨"1 Main St", 37, -122, LocationDataCard (some ⟨none, none, none⟩), [],
          getDecisionConfig "APPROVE", some "ok"⟩).isSome = true :=
  (location_card_optional.2.2
      ⟨some ⟨"1 Main St", 37, -122⟩, some [], some "ok", some "APPROVE",
        some ⟨none, none, none⟩⟩
      _ rfl).mpr rfl

/-- How `selectedCoordinates` moves under one form event: an edit clears it,
selecting a suggestion stores that suggestion's coordinates, everything else
leaves it alone. -/
theorem stepInput_selectedCoordinates (s : AddressInputState) (e : InputEvent) :
    (stepInput s e).1.selectedCoordinates =
      match e with
      | .editAddress _ => none
      | .selectSuggestion f => some (featureCoordinates f)
      | _ => s.selectedCoordinates := by
  cases e with
  | editAddress v => rfl
  | suggestionsLoaded fs => rfl
  | selectSuggestion f => rfl
  | submitForm =>
    rcases hc : s.selectedCoordinates with _ | c
    · simp [stepInput, hc]
    · by_cases ht : jsTrim s.address = "" <;> simp [stepInput, hc, ht]

/-- Generalized fold lemma: running the form tracks exactly the
most-recently-selected coordinates, reset by edits. -/
theorem runInput_coords_aux (events : List InputEvent) (s : AddressInputState)
    (emitted : List (String × Coordinates)) :
    (events.foldl (fun acc e =>
        let out := stepInput acc.1 e
        (out.1, acc.2 ++ out.2.toList)) (s, emitted)).1.selectedCoordinates =
      events.foldl (fun acc e =>
        match e with
        | .editAddress _ => none
        | .selectSuggestion f => some (featureCoordinates f)
        | _ => acc) s.selectedCoordinates := by
  induction events generalizing s emitted with
  | nil => rfl
  | cons e rest ih =>
    simp only [List.foldl_cons]
    rw [ih]
    congr 1
    exact stepInput_selectedCoordinates s e

/-- C9: the form's stored coordinates always equal those of the most
recently selected suggestion with edits resetting them; a submission is
emitted only with the non-empty trimmed address and those stored
coordinates; and with no stored coordinates both the `handleSubmit` guard
and the disabled submit button block submission. -/
theorem address_form_submit_integrity :
    (∀ events, (runInput events).1.selectedCoordinates = lastSelectedCoordinates events) ∧
    (∀ events v,
      (runInput (events ++ [InputEvent.editAddress v])).1.selectedCoordinates = none) ∧
    (∀ s a c, (stepInput s InputEvent.submitForm).2 = some (a, c) →
      a = jsTrim s.address ∧ a ≠ "" ∧ s.selectedCoordinates = some c) ∧
    (∀ s isLoading, s.selectedCoordinates = none →
      (stepInput s InputEvent.submitForm).2 = none ∧
      submitButtonDisabled s isLoading = true) := by
  refine ⟨fun events => runInput_coords_aux events _ [], ?_, ?_, ?_⟩
  · intro events v
    have h1 : (runInput (events ++ [InputEvent.editAddress v])).1.selectedCoordinates
        = lastSelectedCoordinates (events ++ [InputEvent.editAddress v]) :=
      runInput_coords_aux _ _ []
    rw [h1]
    unfold lastSelectedCoordinates
    rw [List.foldl_append]
    rfl
  · intro s a c h
    have hstep : stepInput s InputEvent.submitForm
        = match s.selectedCoordinates with
          | some cc =>
            if jsTrim s.address = "" then (s, none)
            else ({ s with showSuggestions := false }, some (jsTrim s.address, cc))
          | none => (s, none) := rfl
    rcases hc : s.selectedCoordinates with _ | c'
    · rw [hstep, hc] at h
      simp at h
    · rw [hstep, hc] at h
      split_ifs at h with ht
      simp only [Option.some.injEq, Prod.mk.injEq] at h
      obtain ⟨ha, hcc⟩ := h
      exact ⟨ha.symm, fun he => ht (ha.trans he), by rw [hcc]⟩
  · intro s isLoading h
    exact ⟨by simp [stepInput, h], by simp [submitButtonDisabled, h]⟩

/-- Witness for C9: a selection followed by a submit, and a coordinate-free
state where submission is blocked. -/
theorem address_form_submit_integrity_witness :
    (runInput [InputEvent.selectSuggestion ⟨"f1", "10 Downing St", (3, 51)⟩]).1.selectedCoordinates
      = lastSelectedCoordinates [InputEvent.selectSuggestion ⟨"f1", "10 Downing St", (3, 51)⟩] ∧
    ("10 Downing St" =
        jsTrim (AddressInputState.address ⟨"10 Downing St", [], false, some ⟨51, 3⟩⟩) ∧
      "10 Downing St" ≠ "" ∧
      AddressInputState.selectedCoordinates ⟨"10 Downing St", [], false, some ⟨51, 3⟩⟩
        = some ⟨51, 3⟩) ∧
    ((stepInput ⟨"", [], false, none⟩ InputEvent.submitForm).2 = none ∧
      submitButtonDisabled ⟨"", [], false, none⟩ false = true) :=
  ⟨address_form_submit_integrity.1 _,
   address_form_submit_integrity.2.2.1 ⟨"10 Downing St", [], false, some ⟨51, 3⟩⟩
     "10 Downing St" ⟨51, 3⟩ (by decide),
   address_form_submit_integrity.2.2.2 ⟨"", [], false, none⟩ false rfl⟩

end RiskEcoLinker
